import Mathlib

/-
Shallow embedding of the ign-gui repository sources:
  src/src/Object3DPlugin.cc   (Object3DPlugin implementation)
  src/include/ignition/gui/Plugin.hh  (Plugin base class interface)

Object3DPlugin is Qt glue code: it parses a small XML configuration
element, looks up a rendering engine and scene, and maintains a widget
list mirroring a list of 3D objects.  The embedding models:
  - tinyxml2 elements as a tree of tag, text and children;
  - ignition::math::Pose3d and Color as records of rationals (the C++
    doubles are only constructed and compared here, never computed with,
    so rationals are a faithful carrier);
  - the rendering engine registry as an association list of engines,
    each holding a list of named scenes holding object lists;
  - the Qt layout of the plugin widget as a list of layout items;
  - Qt child-widget deletion and null-pointer dereference as Option:
    a function returns none exactly when the C++ would dereference a
    null pointer (undefined behaviour);
  - the pure virtual hooks Add, Delete, Change, Refresh (implemented by
    subclasses outside this repository) as function parameters, and
    stream extraction operators for Pose3d and Color as function
    parameters pp and pc.
-/

set_option maxRecDepth 4000

namespace IgnGui

/-- Model of ignition::math::Pose3d: position and Euler rotation.
Doubles are carried as rationals (constructed and compared only). -/
structure Pose3d where
  x : ℚ
  y : ℚ
  z : ℚ
  roll : ℚ
  pitch : ℚ
  yaw : ℚ
deriving DecidableEq, Repr

/-- Model of ignition::math::Color. -/
structure Color where
  r : ℚ
  g : ℚ
  b : ℚ
  a : ℚ
deriving DecidableEq, Repr

/-- Object3DPlugin.cc line 29: default pose is ignition::math::Pose3d::Zero. -/
def kDefaultPose : Pose3d := ⟨0, 0, 0, 0, 0, 0⟩

/-- Object3DPlugin.cc lines 32-33: default color (0.7, 0.7, 0.7, 1.0). -/
def kDefaultColor : Color := ⟨mkRat 7 10, mkRat 7 10, mkRat 7 10, 1⟩

/-- Object3DPlugin.cc lines 40-47: configuration parsed for one object. -/
structure ObjInfo where
  pose : Pose3d := kDefaultPose
  color : Color := kDefaultColor
deriving DecidableEq, Repr

/-- Model of a tinyxml2::XMLElement: tag name, text content, child elements. -/
inductive XMLElement where
  | mk (tag : String) (text : String) (children : List XMLElement)

/-- Tag name accessor. -/
def XMLElement.tag : XMLElement → String
  | .mk t _ _ => t

/-- GetText accessor. -/
def XMLElement.text : XMLElement → String
  | .mk _ s _ => s

/-- Child elements accessor. -/
def XMLElement.children : XMLElement → List XMLElement
  | .mk _ _ c => c

/-- tinyxml2 FirstChildElement(name): first child whose tag matches. -/
def firstChild : List XMLElement → String → Option XMLElement
  | [], _ => none
  | c :: rest, n => if c.tag == n then some c else firstChild rest n

/-- Model of a rendering::ObjectPtr target: identity plus the visual
attributes relevant to this plugin.  Distinct ids model distinct
shared pointers. -/
structure Obj where
  id : ℕ
  name : String
  pose : Pose3d := kDefaultPose
  color : Color := kDefaultColor
deriving DecidableEq, Repr

/-- Model of a rendering::Scene: name and scene-graph objects. -/
structure Scene where
  name : String
  objects : List Obj
deriving DecidableEq, Repr

/-- Model of a rendering::RenderEngine: the scenes it holds. -/
structure Engine where
  scenes : List Scene
deriving DecidableEq, Repr

/-- Engine::SceneByName. -/
def Engine.sceneByName (e : Engine) (n : String) : Option Scene :=
  e.scenes.find? (fun s => s.name == n)

/-- Model of ignition::rendering::engine(name): the registry of loaded
engines as an association list; lookup returns none when the engine is
not supported. -/
def engineLookup (env : List (String × Engine)) (n : String) : Option Engine :=
  (env.find? (fun p => p.1 == n)).map Prod.snd

/-- Model of a PropertyWidget handed to AppendObj. -/
structure PropWidget where
  widgetName : String
deriving DecidableEq, Repr

/-- Model of a QVariant value carried by a change signal. -/
structure QVariant where
  val : String
deriving DecidableEq, Repr

/-- Content rows of a CollapsibleWidget built by AppendObj: the property
widgets followed by the delete button carrying the objName property. -/
inductive RowContent where
  | prop (w : PropWidget)
  | deleteButton (objName : String)
deriving DecidableEq, Repr

/-- Items of the plugin widget main QVBoxLayout. -/
inductive LayoutItem where
  | buttons
  | collapsible (objName : String) (contents : List RowContent)
  | spacer
  | label (text : String)
deriving DecidableEq, Repr

/-- State of an Object3DPlugin object: Plugin.hh member title, the
Object3DPlugin members typeSingular, sceneName, engine and objs, and
the widget layout (none models layout() == nullptr). -/
structure PluginState where
  title : String
  typeSingular : String
  sceneName : String
  engine : Option Engine
  objs : List Obj
  layout : Option (List LayoutItem)
deriving DecidableEq, Repr

/-- Object3DPlugin.cc lines 72-73: set a default title when empty. -/
def titleStep (st : PluginState) : PluginState :=
  if st.title = "" then { st with title := "3D " ++ st.typeSingular } else st

/-- Object3DPlugin.cc lines 76, 78, 81-82: the engine name is the text of
the first engine child when the plugin element and that child exist,
otherwise the initial value "ogre". -/
def engineNameOf (elem : Option XMLElement) : String :=
  match elem with
  | none => "ogre"
  | some e =>
    match firstChild e.children "engine" with
    | none => "ogre"
    | some c => c.text

/-- Object3DPlugin.cc lines 84-85: sceneName is overwritten with the text
of the first scene child when the plugin element and that child exist,
and left at its current value otherwise. -/
def sceneNameAfter (elem : Option XMLElement) (st : PluginState) : String :=
  match elem with
  | none => st.sceneName
  | some e =>
    match firstChild e.children "scene" with
    | none => st.sceneName
    | some c => c.text

/-- Object3DPlugin.cc lines 92-106: build one ObjInfo from an insert
element; pose and color are stream-extracted (modelled by pp and pc)
from the first pose and color children, keeping defaults when absent. -/
def mkObjInfo (pp : String → Pose3d) (pc : String → Color)
    (ins : XMLElement) : ObjInfo :=
  { pose :=
      match firstChild ins.children "pose" with
      | some c => pp c.text
      | none => kDefaultPose
    color :=
      match firstChild ins.children "color" with
      | some c => pc c.text
      | none => kDefaultColor }

/-- Object3DPlugin.cc lines 88-109: the loop over insert siblings,
pushing one ObjInfo per insert child in document order. -/
def objInfosOf (pp : String → Pose3d) (pc : String → Color) :
    List XMLElement → List ObjInfo
  | [] => []
  | c :: rest =>
    if c.tag == "insert" then
      mkObjInfo pp pc c :: objInfosOf pp pc rest
    else
      objInfosOf pp pc rest

/-- Object3DPlugin.cc lines 118-133: the error string kept to show the
user, depending on the engine and scene lookups. -/
def errorOf (eng : Option Engine) (engineName sceneName : String) : String :=
  match eng with
  | none => "Engine \"" ++ engineName ++ "\" not supported, plugin won't work."
  | some e =>
    match e.sceneByName sceneName with
    | none => "Scene \"" ++ sceneName ++ "\" not found, plugin won't work."
    | some _ => ""

/-- Object3DPlugin.cc lines 187-195: the layout clearing loop
`while (count() != 1) takeAt(1)`.  Each iteration removes the item at
index 1 (deleting it when it is a CollapsibleWidget).  With zero items
the condition holds but takeAt(1) returns a null pointer which the loop
body dereferences: modelled as none. -/
def clearLoop : List LayoutItem → Option (List LayoutItem)
  | [] => none
  | [x] => some [x]
  | x :: _ :: rest => clearLoop (x :: rest)
termination_by l => l.length
decreasing_by simp

/-- Object3DPlugin.cc lines 263-287 AppendObj: push the object on objs
and append a CollapsibleWidget holding the property widgets and a
delete button (whose objName property is the object name). -/
def appendObj (st : PluginState) (obj : Obj) (props : List PropWidget) :
    PluginState :=
  { st with
    objs := st.objs ++ [obj]
    layout := st.layout.map (fun l =>
      l ++ [LayoutItem.collapsible obj.name
        (props.map RowContent.prop ++ [RowContent.deleteButton obj.name])]) }

/-- Object3DPlugin.cc lines 243-245: message shown when the scene was
destroyed. -/
def sceneDestroyedMsg (sceneName : String) : String :=
  "Scene \"" ++ sceneName ++ "\" has been destroyed.\n"
    ++ "Create a new scene and then open a new plugin."

/-- Object3DPlugin.cc lines 229-259, the part of OnRefresh after the
layout was cleared or created (l1 is the current item list): look the
scene up through this->engine (none when engine is null: the C++ would
dereference it), handle a destroyed scene by replacing the buttons with
a message, otherwise clear objs, run the subclass Refresh (modelled as
the list of AppendObj calls it makes for the scene) and add a spacer. -/
def onRefreshRest (R : Scene → List (Obj × List PropWidget))
    (st : PluginState) (l1 : List LayoutItem) : Option PluginState :=
  match st.engine with
  | none => none
  | some eng =>
    match eng.sceneByName st.sceneName with
    | none =>
      some { st with
        layout := some (l1.drop 1
          ++ [LayoutItem.label (sceneDestroyedMsg st.sceneName)]) }
    | some s =>
      let st1 := { st with objs := [], layout := some l1 }
      let st2 := (R s).foldl (fun a p => appendObj a p.1 p.2) st1
      some { st2 with
        layout := st2.layout.map (fun l => l ++ [LayoutItem.spacer]) }

/-- Object3DPlugin.cc lines 180-260 OnRefresh: clear an existing layout
down to its first item (none when the loop dereferences null), or
create the layout with the add and refresh buttons widget, then
proceed with the scene. -/
def onRefresh (R : Scene → List (Obj × List PropWidget))
    (st : PluginState) : Option PluginState :=
  match st.layout with
  | some l =>
    match clearLoop l with
    | none => none
    | some l1 => onRefreshRest R st l1
  | none => onRefreshRest R st [LayoutItem.buttons]

/-- Object3DPlugin.cc lines 70-177 LoadConfig.  Arguments: the engine
registry env, the stream extraction functions pp and pc, the subclass
Refresh hook R, the DeleteLaterRequested flag, the plugin element and
the plugin state.  Returns the plugin state and the engine registry
(returned unchanged: the object insertion loop body, lines 141-153, is
commented out in the source, so the scene graph is never touched). -/
def loadConfig (env : List (String × Engine))
    (pp : String → Pose3d) (pc : String → Color)
    (R : Scene → List (Obj × List PropWidget))
    (deleteLater : Bool) (elem : Option XMLElement) (st : PluginState) :
    Option (PluginState × List (String × Engine)) :=
  let st1 := titleStep st
  let engineName := engineNameOf elem
  let st2 := { st1 with sceneName := sceneNameAfter elem st1 }
  let _objInfos := objInfosOf pp pc
    (match elem with | some e => e.children | none => [])
  let eng := engineLookup env engineName
  let st3 := { st2 with engine := eng }
  let error := errorOf eng engineName st2.sceneName
  if deleteLater then
    some (st3, env)
  else if error ≠ "" then
    some ({ st3 with layout := some [LayoutItem.label error] }, env)
  else
    (onRefresh R st3).map (fun s => (s, env))

/-- Object3DPlugin.cc lines 290-304, the OnChange loop: the objects
passed to Change (with the sender objectName and the value), where
objName is the sender objName property.  At most one call is made: the
loop breaks after the first name match. -/
def onChangeRun (objName ty : String) (v : QVariant) :
    List Obj → List (Obj × String × QVariant)
  | [] => []
  | o :: rest =>
    if o.name == objName then [(o, ty, v)]
    else onChangeRun objName ty v rest

/-- Object3DPlugin.cc OnChange: the plugin state is not modified; the
second component is the trace of Change calls. -/
def onChange (objName ty : String) (v : QVariant) (st : PluginState) :
    PluginState × List (Obj × String × QVariant) :=
  (st, onChangeRun objName ty v st.objs)

/-- Object3DPlugin.cc lines 312-326, the OnDelete loop: first component
is the trace of objects passed to Delete (name matches tried in order
until one Delete succeeds), second is the object whose Delete returned
true, if any. -/
def onDeleteRun (D : Obj → Bool) (objName : String) :
    List Obj → List Obj × Option Obj
  | [] => ([], none)
  | o :: rest =>
    if o.name == objName then
      if D o then ([o], some o)
      else
        let r := onDeleteRun D objName rest
        (o :: r.1, r.2)
    else onDeleteRun D objName rest

/-- Object3DPlugin.cc lines 307-327 OnDelete: when some matching object
is deleted successfully, it is erased from objs (std::remove erases
every pointer-equal element) and OnRefresh rebuilds the list; when
every Delete call fails the state is unchanged. -/
def onDelete (D : Obj → Bool) (R : Scene → List (Obj × List PropWidget))
    (objName : String) (st : PluginState) : Option PluginState :=
  match (onDeleteRun D objName st.objs).2 with
  | none => some st
  | some o =>
    onRefresh R { st with objs := st.objs.filter (fun x => x ≠ o) }

/-- Object3DPlugin.cc lines 330-335 OnAdd: run the subclass Add hook
(modelled as a transformation of the engine the plugin holds) and
rebuild the list via OnRefresh. -/
def onAdd (Add : Engine → Engine) (R : Scene → List (Obj × List PropWidget))
    (st : PluginState) : Option PluginState :=
  onRefresh R { st with engine := st.engine.map Add }

/- Concrete fixtures used by witnesses and the counterexample. -/

/-- A concrete object. -/
def obj1 : Obj := { id := 1, name := "obj1" }

/-- A concrete scene holding obj1. -/
def scene1 : Scene := ⟨"scene1", [obj1]⟩

/-- A concrete engine holding scene1. -/
def eng1 : Engine := ⟨[scene1]⟩

/-- A typical Refresh hook: one AppendObj call per scene object, with no
property widgets. -/
def refresh1 : Scene → List (Obj × List PropWidget) :=
  fun s => s.objects.map (fun o => (o, []))

/-- A plugin state after a successful load against eng1. -/
def stA : PluginState :=
  { title := "3D Grid", typeSingular := "Grid", sceneName := "scene1"
    engine := some eng1, objs := [obj1]
    layout := some [LayoutItem.buttons,
      LayoutItem.collapsible "obj1" [RowContent.deleteButton "obj1"],
      LayoutItem.spacer] }

/-- A fixed pose extraction returning the parsed pose of the C2 input. -/
def ppFixed : String → Pose3d := fun _ => ⟨1, 2, 3, 0, 0, 0⟩

/-- A fixed color extraction returning the default color. -/
def pcFixed : String → Color := fun _ => kDefaultColor

/-- An insert element carrying a pose child. -/
def insElem : XMLElement := .mk "insert" "" [.mk "pose" "1 2 3 0 0 0" []]

/-- An insert element with no pose and no color child. -/
def insEmpty : XMLElement := .mk "insert" "" []

/-- A plugin element selecting scene1 and asking for one insertion. -/
def pluginElem2 : XMLElement :=
  .mk "plugin" "" [.mk "scene" "scene1" [], insElem]

/-- An engine registry whose ogre engine holds an empty scene1. -/
def env2 : List (String × Engine) := [("ogre", Engine.mk [Scene.mk "scene1" []])]

/-- A freshly constructed plugin state. -/
def stFresh : PluginState :=
  { title := "", typeSingular := "Grid", sceneName := ""
    engine := none, objs := [], layout := none }

/-- A second concrete object, as created by an Add hook. -/
def obj2 : Obj := { id := 2, name := "obj2" }

/-- The scene after an Add hook created obj2. -/
def sceneAdded : Scene := ⟨"scene1", [obj1, obj2]⟩

/-- A concrete Add hook: creates obj2 in scene1. -/
def addFn : Engine → Engine := fun _ => ⟨[sceneAdded]⟩

/-- A plugin state right after the first OnRefresh built the buttons. -/
def stB : PluginState :=
  { title := "3D Grid", typeSingular := "Grid", sceneName := "scene1"
    engine := some eng1, objs := [obj1]
    layout := some [LayoutItem.buttons] }

/-- A concrete change value. -/
def var1 : QVariant := ⟨"1 0 0 0 0 0"⟩

/-- The state loadConfig produces on the C2 input. -/
def c2out : PluginState :=
  { title := "3D Grid", typeSingular := "Grid", sceneName := "scene1"
    engine := some (Engine.mk [Scene.mk "scene1" []]), objs := []
    layout := some [LayoutItem.buttons, LayoutItem.spacer] }

/-- Claim C2 as stated, instantiated at the concrete C2 input: for the
insert child of pluginElem2, with engine and scene both found, the call
adds a corresponding object (with the parsed pose) to the scene graph
of the resulting rendering environment. -/
def claimTwoStated : Prop :=
  ∀ pr, loadConfig env2 ppFixed pcFixed refresh1 false (some pluginElem2)
      stFresh = some pr →
    ∃ eng, engineLookup pr.2 "ogre" = some eng ∧
    ∃ s, eng.sceneByName "scene1" = some s ∧
    ∃ o, o ∈ s.objects ∧ o.pose = ppFixed "1 2 3 0 0 0"

/- Helper lemmas. -/

/-- titleStep only touches the title field. -/
@[simp]
theorem titleStep_sceneName (st : PluginState) :
    (titleStep st).sceneName = st.sceneName := by
  unfold titleStep; split <;> rfl

@[simp]
theorem titleStep_typeSingular (st : PluginState) :
    (titleStep st).typeSingular = st.typeSingular := by
  unfold titleStep; split <;> rfl

@[simp]
theorem titleStep_engine (st : PluginState) :
    (titleStep st).engine = st.engine := by
  unfold titleStep; split <;> rfl

@[simp]
theorem titleStep_objs (st : PluginState) :
    (titleStep st).objs = st.objs := by
  unfold titleStep; split <;> rfl

@[simp]
theorem titleStep_layout (st : PluginState) :
    (titleStep st).layout = st.layout := by
  unfold titleStep; split <;> rfl

/-- sceneNameAfter only reads the sceneName field of the state. -/
theorem sceneNameAfter_congr (elem : Option XMLElement) (st st' : PluginState)
    (h : st.sceneName = st'.sceneName) :
    sceneNameAfter elem st = sceneNameAfter elem st' := by
  unfold sceneNameAfter
  cases elem with
  | none => exact h
  | some e => cases firstChild e.children "scene" <;> simp [h]

@[simp]
theorem sceneNameAfter_titleStep (elem : Option XMLElement) (st : PluginState) :
    sceneNameAfter elem (titleStep st) = sceneNameAfter elem st :=
  sceneNameAfter_congr elem (titleStep st) st (titleStep_sceneName st)

/-- The clearing loop on a nonempty item list keeps exactly the item at
index 0. -/
theorem clearLoop_cons (b : LayoutItem) :
    ∀ rest : List LayoutItem, clearLoop (b :: rest) = some [b]
  | [] => by simp [clearLoop]
  | y :: rest => by
    rw [show clearLoop (b :: y :: rest) = clearLoop (b :: rest) from by
      simp [clearLoop]]
    exact clearLoop_cons b rest

/-- Folding appendObj over a list of Refresh calls appends the objects to
objs and one collapsible row per object to the layout. -/
theorem foldl_appendObj (l : List (Obj × List PropWidget)) :
    ∀ (st : PluginState) (items : List LayoutItem), st.layout = some items →
    l.foldl (fun a p => appendObj a p.1 p.2) st =
      { st with
        objs := st.objs ++ l.map Prod.fst
        layout := some (items ++ l.map fun p =>
          LayoutItem.collapsible p.1.name
            (p.2.map RowContent.prop ++ [RowContent.deleteButton p.1.name])) } := by
  induction l with
  | nil =>
    intro st items h
    cases st
    simp_all
  | cons p rest ih =>
    intro st items h
    rw [List.foldl_cons,
      ih (appendObj st p.1 p.2)
        (items ++ [LayoutItem.collapsible p.1.name
          (p.2.map RowContent.prop ++ [RowContent.deleteButton p.1.name])])
        (by simp [appendObj, h])]
    cases st
    simp_all [appendObj]

/-- The part of OnRefresh past the layout clearing, when engine and scene
are both alive. -/
theorem onRefreshRest_alive (R : Scene → List (Obj × List PropWidget))
    (st : PluginState) (l1 : List LayoutItem) (eng : Engine) (s : Scene)
    (h2 : st.engine = some eng) (h3 : eng.sceneByName st.sceneName = some s) :
    onRefreshRest R st l1 =
      some { st with
        objs := (R s).map Prod.fst
        layout := some ((l1 ++ (R s).map fun p =>
          LayoutItem.collapsible p.1.name
            (p.2.map RowContent.prop ++ [RowContent.deleteButton p.1.name]))
          ++ [LayoutItem.spacer]) } := by
  unfold onRefreshRest
  rw [h2]
  dsimp only
  rw [h3]
  dsimp only
  rw [foldl_appendObj (R s) _ l1 rfl]
  cases st
  simp_all

/-- OnRefresh with an existing layout, live engine and live scene. -/
theorem onRefresh_alive (R : Scene → List (Obj × List PropWidget))
    (st : PluginState) (b : LayoutItem) (rest : List LayoutItem)
    (eng : Engine) (s : Scene)
    (h1 : st.layout = some (b :: rest)) (h2 : st.engine = some eng)
    (h3 : eng.sceneByName st.sceneName = some s) :
    onRefresh R st =
      some { st with
        objs := (R s).map Prod.fst
        layout := some (b :: (((R s).map fun p =>
          LayoutItem.collapsible p.1.name
            (p.2.map RowContent.prop ++ [RowContent.deleteButton p.1.name]))
          ++ [LayoutItem.spacer])) } := by
  unfold onRefresh
  rw [h1]
  dsimp only
  rw [clearLoop_cons]
  dsimp only
  rw [onRefreshRest_alive R st [b] eng s h2 h3]
  simp

/-- onRefreshRest never changes title, typeSingular, sceneName or engine. -/
theorem onRefreshRest_fields (R : Scene → List (Obj × List PropWidget))
    (st : PluginState) (l1 : List LayoutItem) (st' : PluginState)
    (h : onRefreshRest R st l1 = some st') :
    st'.title = st.title ∧ st'.typeSingular = st.typeSingular ∧
    st'.sceneName = st.sceneName ∧ st'.engine = st.engine := by
  unfold onRefreshRest at h
  cases hE : st.engine with
  | none => rw [hE] at h; exact absurd h (by simp)
  | some eng =>
    rw [hE] at h
    dsimp only at h
    cases hS : eng.sceneByName st.sceneName with
    | none =>
      rw [hS] at h
      dsimp only at h
      simp only [Option.some.injEq] at h
      subst h
      simp
    | some s =>
      rw [hS] at h
      dsimp only at h
      rw [foldl_appendObj (R s) _ l1 rfl] at h
      simp only [Option.some.injEq] at h
      subst h
      simp

/-- OnRefresh never changes title, typeSingular, sceneName or engine. -/
theorem onRefresh_fields (R : Scene → List (Obj × List PropWidget))
    (st : PluginState) (st' : PluginState)
    (h : onRefresh R st = some st') :
    st'.title = st.title ∧ st'.typeSingular = st.typeSingular ∧
    st'.sceneName = st.sceneName ∧ st'.engine = st.engine := by
  unfold onRefresh at h
  cases hL : st.layout with
  | none =>
    rw [hL] at h
    dsimp only at h
    exact onRefreshRest_fields R st [LayoutItem.buttons] st' h
  | some l =>
    rw [hL] at h
    dsimp only at h
    cases hC : clearLoop l with
    | none => rw [hC] at h; exact absurd h (by simp)
    | some l1 =>
      rw [hC] at h
      dsimp only at h
      exact onRefreshRest_fields R st l1 st' h

/-- The Delete trace starts with the first name match. -/
theorem onDeleteRun_head (D : Obj → Bool) (objName : String) :
    ∀ (l : List Obj) (o : Obj),
      l.find? (fun x => x.name == objName) = some o →
      (onDeleteRun D objName l).1.head? = some o := by
  intro l
  induction l with
  | nil => intro o h; simp [List.find?] at h
  | cons a rest ih =>
    intro o h
    rw [List.find?_cons] at h
    cases ha : (a.name == objName) with
    | false =>
      rw [ha] at h
      simp only at h
      rw [show onDeleteRun D objName (a :: rest) = onDeleteRun D objName rest
        from by simp [onDeleteRun, ha]]
      exact ih o h
    | true =>
      rw [ha] at h
      simp only [Option.some.injEq] at h
      subst h
      unfold onDeleteRun
      rw [ha]
      simp only [if_true]
      cases D a <;> simp

/-- When the first name match is deleted successfully, it is the object
the loop settles on. -/
theorem onDeleteRun_found_first (D : Obj → Bool) (objName : String) :
    ∀ (l : List Obj) (o : Obj),
      l.find? (fun x => x.name == objName) = some o → D o = true →
      (onDeleteRun D objName l).2 = some o := by
  intro l
  induction l with
  | nil => intro o h; simp [List.find?] at h
  | cons a rest ih =>
    intro o h hD
    rw [List.find?_cons] at h
    cases ha : (a.name == objName) with
    | false =>
      rw [ha] at h
      simp only at h
      rw [show onDeleteRun D objName (a :: rest) = onDeleteRun D objName rest
        from by simp [onDeleteRun, ha]]
      exact ih o h hD
    | true =>
      rw [ha] at h
      simp only [Option.some.injEq] at h
      subst h
      unfold onDeleteRun
      rw [ha]
      simp [hD]

/-- When Delete fails on every name match, the loop settles on nothing. -/
theorem onDeleteRun_all_fail (D : Obj → Bool) (objName : String) :
    ∀ l : List Obj, (∀ x ∈ l, x.name = objName → D x = false) →
      (onDeleteRun D objName l).2 = none := by
  intro l
  induction l with
  | nil => intro _; rfl
  | cons a rest ih =>
    intro h
    unfold onDeleteRun
    cases ha : (a.name == objName) with
    | false =>
      simp only [ha, if_false]
      exact ih (fun x hx => h x (List.mem_cons_of_mem a hx))
    | true =>
      have hDa : D a = false :=
        h a (List.mem_cons_self a rest) (by simpa using ha)
      simp [hDa]
      exact ih (fun x hx => h x (List.mem_cons_of_mem a hx))

/-- The Change trace is the singleton at the first name match, empty when
no name matches. -/
theorem onChangeRun_find (objName ty : String) (v : QVariant) :
    ∀ l : List Obj,
      (∀ o, l.find? (fun x => x.name == objName) = some o →
        onChangeRun objName ty v l = [(o, ty, v)]) ∧
      (l.find? (fun x => x.name == objName) = none →
        onChangeRun objName ty v l = []) := by
  intro l
  induction l with
  | nil => exact ⟨fun o h => by simp [List.find?] at h, fun _ => rfl⟩
  | cons a rest ih =>
    constructor
    · intro o h
      rw [List.find?_cons] at h
      cases ha : (a.name == objName) with
      | false =>
        rw [ha] at h
        simp only at h
        rw [show onChangeRun objName ty v (a :: rest)
            = onChangeRun objName ty v rest from by simp [onChangeRun, ha]]
        exact ih.1 o h
      | true =>
        rw [ha] at h
        simp only [Option.some.injEq] at h
        subst h
        simp [onChangeRun, ha]
    · intro h
      rw [List.find?_cons] at h
      cases ha : (a.name == objName) with
      | false =>
        rw [ha] at h
        simp only at h
        rw [show onChangeRun objName ty v (a :: rest)
            = onChangeRun objName ty v rest from by simp [onChangeRun, ha]]
        exact ih.2 h
      | true => rw [ha] at h; simp at h

/-- A string starting with a nonempty literal is nonempty. -/
theorem error_ne_empty (a n b : String) (ha : a.data ≠ []) :
    (a ++ n ++ b) ≠ "" := by
  intro h
  have h2 := congrArg String.data h
  rw [String.data_append, String.data_append] at h2
  have h3 : a.data = [] := by
    have := List.append_eq_nil.mp (List.append_eq_nil.mp h2).1
    exact this.1
  exact ha h3

/- Claim theorems. -/

/-- Claim C10: started on a layout holding at least one item, the
clearing loop of OnRefresh terminates with exactly the index-0 item
kept and never dereferences a null layout item (the run is defined);
started on a layout holding zero items, takeAt(1) yields a null item
which the loop body dereferences (modelled as none). -/
theorem clearLoop_terminates_or_null :
    (∀ (x : LayoutItem) (rest : List LayoutItem),
      clearLoop (x :: rest) = some [x])
    ∧ clearLoop ([] : List LayoutItem) = none :=
  ⟨fun x rest => clearLoop_cons x rest, by simp [clearLoop]⟩

/-- Claim C9: an OnRefresh call that finds the scene alive clears objs
and the CollapsibleWidget rows, keeps the buttons widget at index 0,
and afterwards objs holds exactly the objects appended via AppendObj
during the nested Refresh call, each with one CollapsibleWidget row
(property widgets then a delete button) in the layout, followed by a
trailing spacer. -/
theorem onRefresh_rebuild_spec (R : Scene → List (Obj × List PropWidget))
    (st : PluginState) (b : LayoutItem) (rest : List LayoutItem)
    (eng : Engine) (s : Scene)
    (h1 : st.layout = some (b :: rest)) (h2 : st.engine = some eng)
    (h3 : eng.sceneByName st.sceneName = some s) :
    ∃ st', onRefresh R st = some st' ∧
      st'.objs = (R s).map Prod.fst ∧
      st'.layout = some (b :: (((R s).map fun p =>
        LayoutItem.collapsible p.1.name
          (p.2.map RowContent.prop ++ [RowContent.deleteButton p.1.name]))
        ++ [LayoutItem.spacer])) :=
  ⟨_, onRefresh_alive R st b rest eng s h1 h2 h3, rfl, rfl⟩

/-- Witness for C9: refreshing a loaded plugin against eng1 rebuilds the
single row for obj1. -/
theorem onRefresh_rebuild_spec_w :
    ∃ st', onRefresh refresh1 stA = some st' ∧
      st'.objs = (refresh1 scene1).map Prod.fst ∧
      st'.layout = some (LayoutItem.buttons :: (((refresh1 scene1).map fun p =>
        LayoutItem.collapsible p.1.name
          (p.2.map RowContent.prop ++ [RowContent.deleteButton p.1.name]))
        ++ [LayoutItem.spacer])) :=
  onRefresh_rebuild_spec refresh1 stA LayoutItem.buttons
    [LayoutItem.collapsible "obj1" [RowContent.deleteButton "obj1"],
      LayoutItem.spacer]
    eng1 scene1 rfl rfl (by decide)

/-- Claim C6: OnAdd runs the Add hook exactly once on the engine the
plugin holds and then rebuilds the list via OnRefresh, so an object the
Add hook made visible to Refresh appears in the refreshed objs list. -/
theorem onAdd_spec (Add : Engine → Engine)
    (R : Scene → List (Obj × List PropWidget)) (st : PluginState)
    (e : Engine) (s : Scene) (b : LayoutItem) (rest : List LayoutItem)
    (o : Obj) (props : List PropWidget)
    (h1 : st.engine = some e) (h2 : st.layout = some (b :: rest))
    (h3 : (Add e).sceneByName st.sceneName = some s)
    (h4 : (o, props) ∈ R s) :
    ∃ st', onAdd Add R st = some st' ∧ st'.engine = some (Add e) ∧
      st'.objs = (R s).map Prod.fst ∧ o ∈ st'.objs := by
  have hE : ({ st with engine := st.engine.map Add }).engine
      = some (Add e) := by
    simp only [h1]
    rfl
  have hL : ({ st with engine := st.engine.map Add }).layout
      = some (b :: rest) := h2
  have hS : (Add e).sceneByName
      ({ st with engine := st.engine.map Add }).sceneName = some s := h3
  refine ⟨_, onRefresh_alive R _ b rest (Add e) s hL hE hS, hE, rfl, ?_⟩
  exact List.mem_map_of_mem Prod.fst h4

/-- Witness for C6: adding obj2 through the Add hook makes it appear in
the refreshed objs list. -/
theorem onAdd_spec_w :
    ∃ st', onAdd addFn refresh1 stB = some st' ∧
      st'.engine = some (addFn eng1) ∧
      st'.objs = (refresh1 sceneAdded).map Prod.fst ∧ obj2 ∈ st'.objs :=
  onAdd_spec addFn refresh1 stB eng1 sceneAdded LayoutItem.buttons [] obj2 []
    rfl rfl (by decide) (by decide)

/-- Claim C1: OnDelete passes the first object of objs whose name equals
the sender objName property to Delete; when Delete succeeds on it,
exactly that object is erased from objs and OnRefresh rebuilds the
list; when Delete fails on every matching object the state is
unchanged. -/
theorem onDelete_spec (D : Obj → Bool)
    (R : Scene → List (Obj × List PropWidget))
    (objName : String) (st : PluginState) :
    (∀ o, st.objs.find? (fun x => x.name == objName) = some o →
      (onDeleteRun D objName st.objs).1.head? = some o ∧
      (D o = true →
        onDelete D R objName st =
          onRefresh R { st with objs := st.objs.filter (fun x => x ≠ o) }))
    ∧ ((∀ x ∈ st.objs, x.name = objName → D x = false) →
        onDelete D R objName st = some st) := by
  constructor
  · intro o h
    refine ⟨onDeleteRun_head D objName st.objs o h, fun hD => ?_⟩
    unfold onDelete
    rw [onDeleteRun_found_first D objName st.objs o h hD]
  · intro h
    unfold onDelete
    rw [onDeleteRun_all_fail D objName st.objs h]

/-- Witness for C1: when Delete always fails, the state is unchanged. -/
theorem onDelete_spec_w :
    onDelete (fun _ => false) refresh1 "obj1" stA = some stA :=
  (onDelete_spec (fun _ => false) refresh1 "obj1" stA).2 (fun _ _ _ => rfl)

/-- Claim C3: OnChange calls Change exactly on the first object of objs
whose name equals the sender objName property (a singleton call trace),
makes no call when no name matches, and never modifies the state. -/
theorem onChange_spec (objName ty : String) (v : QVariant)
    (st : PluginState) :
    (∀ o, st.objs.find? (fun x => x.name == objName) = some o →
      (onChange objName ty v st).2 = [(o, ty, v)])
    ∧ (st.objs.find? (fun x => x.name == objName) = none →
      (onChange objName ty v st).2 = [])
    ∧ (onChange objName ty v st).1 = st :=
  ⟨fun o h => (onChangeRun_find objName ty v st.objs).1 o h,
   fun h => (onChangeRun_find objName ty v st.objs).2 h, rfl⟩

/-- Witness for C3: a change signal for obj1 produces exactly one Change
call on obj1. -/
theorem onChange_spec_w :
    (onChange "obj1" "pose3d" var1 stA).2 = [(obj1, "pose3d", var1)] :=
  (onChange_spec "obj1" "pose3d" var1 stA).1 obj1 (by decide)

/-- Claim C7: when DeleteLaterRequested holds, LoadConfig returns before
creating any widgets: the layout and objs are untouched (so no error
label is added and OnRefresh is not run), while title, sceneName and
engine are still configured. -/
theorem loadConfig_deleteLater_spec (env : List (String × Engine))
    (pp : String → Pose3d) (pc : String → Color)
    (R : Scene → List (Obj × List PropWidget))
    (elem : Option XMLElement) (st : PluginState) :
    ∃ st', loadConfig env pp pc R true elem st = some (st', env) ∧
      st'.layout = st.layout ∧ st'.objs = st.objs ∧
      st'.title = (titleStep st).title ∧
      st'.sceneName = sceneNameAfter elem st ∧
      st'.engine = engineLookup env (engineNameOf elem) := by
  refine ⟨{ { titleStep st with
      sceneName := sceneNameAfter elem (titleStep st) } with
      engine := engineLookup env (engineNameOf elem) },
    ?_, by simp, by simp, rfl, by simp, rfl⟩
  simp [loadConfig]

/-- Claim C8: when the engine is not supported, or the engine is found
but the scene is not, LoadConfig (without a deletion request) installs
a layout holding only the QLabel with the corresponding error message
and returns without running OnRefresh: objs is untouched and no
buttons or rows are created. -/
theorem loadConfig_error_spec (env : List (String × Engine))
    (pp : String → Pose3d) (pc : String → Color)
    (R : Scene → List (Obj × List PropWidget))
    (elem : Option XMLElement) (st : PluginState) :
    (engineLookup env (engineNameOf elem) = none →
      ∃ st', loadConfig env pp pc R false elem st = some (st', env) ∧
        st'.layout = some [LayoutItem.label
          ("Engine \"" ++ engineNameOf elem
            ++ "\" not supported, plugin won't work.")] ∧
        st'.objs = st.objs ∧ st'.title = (titleStep st).title)
    ∧ (∀ eng, engineLookup env (engineNameOf elem) = some eng →
        eng.sceneByName (sceneNameAfter elem st) = none →
      ∃ st', loadConfig env pp pc R false elem st = some (st', env) ∧
        st'.layout = some [LayoutItem.label
          ("Scene \"" ++ sceneNameAfter elem st
            ++ "\" not found, plugin won't work.")] ∧
        st'.objs = st.objs ∧ st'.title = (titleStep st).title) := by
  constructor
  · intro h
    refine ⟨{ { { titleStep st with
        sceneName := sceneNameAfter elem (titleStep st) } with
        engine := engineLookup env (engineNameOf elem) } with
        layout := some [LayoutItem.label
          ("Engine \"" ++ engineNameOf elem
            ++ "\" not supported, plugin won't work.")] },
      ?_, rfl, by simp, rfl⟩
    simp only [loadConfig]
    rw [h]
    simp only [errorOf]
    rw [if_pos (error_ne_empty "Engine \"" (engineNameOf elem)
      "\" not supported, plugin won't work." (by decide))]
    rfl
  · intro eng h h2
    refine ⟨{ { { titleStep st with
        sceneName := sceneNameAfter elem (titleStep st) } with
        engine := engineLookup env (engineNameOf elem) } with
        layout := some [LayoutItem.label
          ("Scene \"" ++ sceneNameAfter elem st
            ++ "\" not found, plugin won't work.")] },
      ?_, rfl, by simp, rfl⟩
    simp only [loadConfig]
    rw [sceneNameAfter_titleStep, h]
    simp only [errorOf]
    rw [h2]
    dsimp only
    rw [if_pos (error_ne_empty "Scene \"" (sceneNameAfter elem st)
      "\" not found, plugin won't work." (by decide))]
    rfl

/-- Witness for C8: with an empty engine registry the engine lookup
fails and the plugin shows only the error label. -/
theorem loadConfig_error_spec_w :
    ∃ st', loadConfig [] ppFixed pcFixed refresh1 false none stFresh
        = some (st', []) ∧
      st'.layout = some [LayoutItem.label
        ("Engine \"" ++ engineNameOf none
          ++ "\" not supported, plugin won't work.")] ∧
      st'.objs = stFresh.objs ∧ st'.title = (titleStep stFresh).title :=
  (loadConfig_error_spec [] ppFixed pcFixed refresh1 none stFresh).1 rfl

/-- Claim C4: every LoadConfig call uses as engine name the text of the
first engine child, defaulting to "ogre" when that child is absent or
the element is null; sceneName becomes the text of the first scene
child when present and is otherwise left unchanged. -/
theorem loadConfig_engine_scene_spec (env : List (String × Engine))
    (pp : String → Pose3d) (pc : String → Color)
    (R : Scene → List (Obj × List PropWidget)) (dl : Bool)
    (elem : Option XMLElement) (st : PluginState) :
    (∀ pr, loadConfig env pp pc R dl elem st = some pr →
      pr.1.engine = engineLookup env (engineNameOf elem) ∧
      pr.1.sceneName = sceneNameAfter elem st)
    ∧ engineNameOf none = "ogre"
    ∧ (∀ e : XMLElement, firstChild e.children "engine" = none →
        engineNameOf (some e) = "ogre")
    ∧ (∀ (e c : XMLElement), firstChild e.children "engine" = some c →
        engineNameOf (some e) = c.text)
    ∧ sceneNameAfter none st = st.sceneName
    ∧ (∀ e : XMLElement, firstChild e.children "scene" = none →
        sceneNameAfter (some e) st = st.sceneName)
    ∧ (∀ (e c : XMLElement), firstChild e.children "scene" = some c →
        sceneNameAfter (some e) st = c.text) := by
  refine ⟨?_, rfl, ?_, ?_, rfl, ?_, ?_⟩
  · intro pr h
    simp only [loadConfig] at h
    split at h
    · simp only [Option.some.injEq] at h
      rw [← h]
      exact ⟨rfl, by simp⟩
    · split at h
      · simp only [Option.some.injEq] at h
        rw [← h]
        exact ⟨rfl, by simp⟩
      · rcases Option.map_eq_some'.mp h with ⟨a, ha, hpr⟩
        rw [← hpr]
        have hf := onRefresh_fields R _ a ha
        exact ⟨hf.2.2.2, by rw [hf.2.2.1]; simp⟩
  · intro e h; simp [engineNameOf, h]
  · intro e c h; simp [engineNameOf, h]
  · intro e h; simp [sceneNameAfter, h]
  · intro e c h; simp [sceneNameAfter, h]

/-- Witness for C4: the C2 input selects the default ogre engine and the
configured scene name. -/
theorem loadConfig_engine_scene_spec_w :
    c2out.engine = engineLookup env2 (engineNameOf (some pluginElem2)) ∧
    c2out.sceneName = sceneNameAfter (some pluginElem2) stFresh :=
  (loadConfig_engine_scene_spec env2 ppFixed pcFixed refresh1 false
    (some pluginElem2) stFresh).1 (c2out, env2) (by decide)

/-- Claim C5: the insert loop of LoadConfig builds exactly one ObjInfo
per insert child in document order; the pose comes from the first pose
child (defaulting to the zero pose) and the color from the first color
child (defaulting to 0.7 0.7 0.7 1.0). -/
theorem loadConfig_objInfos_spec (pp : String → Pose3d)
    (pc : String → Color) (cs : List XMLElement) :
    objInfosOf pp pc cs
      = (cs.filter fun c => c.tag == "insert").map (mkObjInfo pp pc)
    ∧ (∀ ins : XMLElement, firstChild ins.children "pose" = none →
        (mkObjInfo pp pc ins).pose = kDefaultPose)
    ∧ (∀ (ins c : XMLElement), firstChild ins.children "pose" = some c →
        (mkObjInfo pp pc ins).pose = pp c.text)
    ∧ (∀ ins : XMLElement, firstChild ins.children "color" = none →
        (mkObjInfo pp pc ins).color = kDefaultColor)
    ∧ (∀ (ins c : XMLElement), firstChild ins.children "color" = some c →
        (mkObjInfo pp pc ins).color = pc c.text)
    ∧ kDefaultPose = ⟨0, 0, 0, 0, 0, 0⟩
    ∧ kDefaultColor = ⟨7/10, 7/10, 7/10, 1⟩ := by
  refine ⟨?_, ?_, ?_, ?_, ?_, rfl, ?_⟩
  · induction cs with
    | nil => rfl
    | cons c rest ih =>
      cases hc : (c.tag == "insert") <;>
        simp [objInfosOf, List.filter_cons, hc, ih]
  · intro ins h; simp [mkObjInfo, h]
  · intro ins c h; simp [mkObjInfo, h]
  · intro ins h; simp [mkObjInfo, h]
  · intro ins c h; simp [mkObjInfo, h]
  · simp only [kDefaultColor, Color.mk.injEq]
    norm_num [mkRat, Rat.normalize]

/-- Witness for C5: an insert child without a pose child keeps the
default pose. -/
theorem loadConfig_objInfos_spec_w :
    (mkObjInfo ppFixed pcFixed insEmpty).pose = kDefaultPose :=
  (loadConfig_objInfos_spec ppFixed pcFixed []).2.1 insEmpty rfl

/-- Amended C2: LoadConfig parses one ObjInfo per insert child but adds
no object to the scene graph: the insertion loop body is commented out
in the source, so the rendering environment is returned unchanged. -/
theorem loadConfig_env_unchanged (env : List (String × Engine))
    (pp : String → Pose3d) (pc : String → Color)
    (R : Scene → List (Obj × List PropWidget)) (dl : Bool)
    (elem : Option XMLElement) (st : PluginState) :
    ∀ pr, loadConfig env pp pc R dl elem st = some pr → pr.2 = env := by
  intro pr h
  simp only [loadConfig] at h
  split at h
  · simp only [Option.some.injEq] at h
    rw [← h]
  · split at h
    · simp only [Option.some.injEq] at h
      rw [← h]
    · rcases Option.map_eq_some'.mp h with ⟨a, _, hpr⟩
      rw [← hpr]

/-- Witness for the amended C2. -/
theorem loadConfig_env_unchanged_w :
    ((c2out, env2) : PluginState × List (String × Engine)).2 = env2 :=
  loadConfig_env_unchanged env2 ppFixed pcFixed refresh1 false
    (some pluginElem2) stFresh (c2out, env2) (by decide)

/-- Counterexample to C2 as stated: on a configuration with one insert
child, engine and scene both found, LoadConfig adds no object to the
scene graph; the scene stays empty, so no object with the parsed pose
exists. -/
theorem loadConfig_insert_cex : ¬ claimTwoStated := by
  intro h
  obtain ⟨eng, he, s, hs, o, ho, _⟩ := h (c2out, env2) (by decide)
  rw [show engineLookup
      ((c2out, env2) : PluginState × List (String × Engine)).2 "ogre"
      = some (Engine.mk [Scene.mk "scene1" []]) from by decide] at he
  cases he
  rw [show (Engine.mk [Scene.mk "scene1" []]).sceneByName "scene1"
      = some (Scene.mk "scene1" []) from by decide] at hs
  cases hs
  simp at ho

end IgnGui
